import Mathlib

/-!
Shallow embedding of the inference-proxy request pipeline (src/main.py).

The program is a thin HTTP facade over an upstream LLM provider: a model
registry (`MODELS`), a cost table (`COST_PER_MILLION_TOKENS`), a process-wide
response cache keyed by (message, resolved model id), and two request
handlers, `chat` (buffered) and `chat_stream` (streaming).

Modelling decisions:
- Python floats in the cost table are modelled as the exact decimal rationals
  they denote (0.80 ↦ 4/5 etc.); `round(x, 6)` is modelled as round-half-to-even
  at six decimal places on ℚ (`round6`).
- The Python dict `cache` is an association list with overwrite-on-assign
  semantics (`cache_set`); dict membership/lookup is `cache_get`.
- The upstream client is a parameter: `client.messages.create` becomes a
  function `String → String → UpstreamResult` (model id, message), and
  `client.messages.stream` a function returning the yielded text chunks plus
  either the final message (text and usage) or an `APIError` after a prefix of
  chunks. Upstream invocations performed by a handler are recorded in the
  outcome's `upstream_calls` field.
- The logger is modelled as a list of structured `LogEvent`s carrying exactly
  the data the corresponding f-strings interpolate (the wall-clock
  `duration_ms` field, which depends on real time, is omitted).
- A `StreamingResponse` together with the later consumption of its generator
  body is collapsed into one `StreamOutcome`: the `X-Cache` header value, the
  chunks the body yields, and whether iteration ends by raising
  (`HTTPException` from the `except APIError` handler, or an uncaught
  `KeyError` from the cost-table lookup).
-/

/-- Token usage reported by the upstream provider for one completed request. -/
structure Usage where
  input_tokens : Nat
  output_tokens : Nat
deriving DecidableEq, Repr

/-- `MODELS` (src/main.py:23-26): alias ↦ fully-qualified upstream model id. -/
def MODELS : List (String × String) :=
  [("haiku", "claude-haiku-4-5-20251001"),
   ("sonnet", "claude-sonnet-4-6")]

/-- `MODELS.get(alias)` — dict lookup in the model registry. -/
def MODELS_get (al : String) : Option String :=
  (MODELS.find? (fun p => p.1 = al)).map (·.2)

/-- `COST_PER_MILLION_TOKENS` (src/main.py:29-32): model id ↦ (input rate,
output rate) in USD per million tokens; 0.80 is the rational 8/10, etc. -/
def COST_PER_MILLION_TOKENS : List (String × (ℚ × ℚ)) :=
  [("claude-haiku-4-5-20251001", (8/10, 4)),
   ("claude-sonnet-4-6", (3, 15))]

/-- `COST_PER_MILLION_TOKENS[model_id]` — a failing (`KeyError`) dict index,
hence `Option`. -/
def cost_lookup (model_id : String) : Option (ℚ × ℚ) :=
  (COST_PER_MILLION_TOKENS.find? (fun p => p.1 = model_id)).map (·.2)

/-- `calculate_cost` (src/main.py:43-49): tokens / 1,000,000 × rate, summed
over input and output. `none` models the `KeyError` on a missing model id. -/
def calculate_cost (model_id : String) (usage : Usage) : Option ℚ :=
  (cost_lookup model_id).map (fun costs =>
    (usage.input_tokens : ℚ) / 1000000 * costs.1
      + (usage.output_tokens : ℚ) / 1000000 * costs.2)

/-- Python `round(x, 6)`: round to six decimal places, ties to even. -/
def round6 (x : ℚ) : ℚ :=
  let s := x * 1000000
  let n : ℤ :=
    if s - (⌊s⌋ : ℚ) < 1/2 then ⌊s⌋
    else if s - (⌊s⌋ : ℚ) > 1/2 then ⌊s⌋ + 1
    else if ⌊s⌋ % 2 = 0 then ⌊s⌋ else ⌊s⌋ + 1
  (n : ℚ) / 1000000

/-- Cache key: (raw message string, resolved model id). -/
abbrev CacheKey := String × String

/-- The process-wide cache `cache = {}` (src/main.py:35), as an association
list. -/
abbrev Cache := List (CacheKey × String)

/-- `(message, model_id) in cache` / `cache[(message, model_id)]`. -/
def cache_get (c : Cache) (k : CacheKey) : Option String :=
  (c.find? (fun p => p.1 = k)).map (·.2)

/-- `cache[(message, model_id)] = text`: overwrite if the key is present,
otherwise append. -/
def cache_set (c : Cache) (k : CacheKey) (v : String) : Cache :=
  if c.any (fun p => p.1 = k) then
    c.map (fun p => if p.1 = k then (k, v) else p)
  else c ++ [(k, v)]

/-- `ChatRequest` (src/main.py:38-40). -/
structure ChatRequest where
  message : String
  model : String := "haiku"
deriving DecidableEq, Repr

/-- An `HTTPException(status_code=..., detail=...)`. -/
structure HTTPException where
  status_code : Nat
  detail : String
deriving DecidableEq, Repr

/-- The detail string of the unknown-model 400 (src/main.py:67,117):
`f"Unknown model '{request.model}'. Available: {list(MODELS.keys())}"`. -/
def unknown_model_detail (al : String) : String :=
  "Unknown model '" ++ al ++ "'. Available: ['haiku', 'sonnet']"

/-- One `client.messages.create` outcome: a completed message (first content
block's text plus usage) or an `APIError` with its message. -/
inductive UpstreamResult where
  | ok (text : String) (usage : Usage)
  | err (msg : String)
deriving DecidableEq, Repr

/-- The buffered upstream client, as a function of (model id, message). -/
abbrev UpstreamChat := String → String → UpstreamResult

/-- One `client.messages.stream` run: either every chunk of `text_stream` plus
the final message (text of its first content block, usage), or an `APIError`
raised after a prefix of the chunks was already yielded (a failure at stream
open is `errAt [] msg`). -/
inductive StreamBehavior where
  | ok (chunks : List String) (final_text : String) (usage : Usage)
  | errAt (chunks : List String) (msg : String)
deriving DecidableEq, Repr

/-- The streaming upstream client, as a function of (model id, message). -/
abbrev UpstreamStream := String → String → StreamBehavior

/-- One logger line, structured: the data each f-string interpolates
(`duration_ms`, which reads the wall clock, is omitted). -/
inductive LogEvent where
  | cacheHit (al : String)
  | chatResponse (al : String) (input_tokens output_tokens : Nat) (cost_usd : ℚ)
  | streamResponse (al : String) (input_tokens output_tokens : Nat) (cost_usd : ℚ)
  | upstreamError (al : String) (error : String)
deriving DecidableEq, Repr

/-- The JSON body returned by `chat` (src/main.py:121-127, 149-158). -/
structure ChatResponse where
  response : String
  model : String
  usage : Usage
  estimated_cost_usd : ℚ
  cached : Bool
deriving DecidableEq, Repr

/-- How a buffered request terminates: a 200 body, a raised `HTTPException`,
or an uncaught `KeyError` from the cost-table lookup. -/
inductive ChatResult where
  | ok (resp : ChatResponse)
  | httpError (e : HTTPException)
  | keyError
deriving DecidableEq, Repr

/-- Full observable outcome of one buffered request: terminal result, cache
state afterwards, log lines emitted, upstream calls performed. -/
structure ChatOutcome where
  result : ChatResult
  cache : Cache
  log : List LogEvent
  upstream_calls : List (String × String)
deriving DecidableEq, Repr

/-- `chat` (src/main.py:112-158), with the upstream client and the cache state
passed explicitly. -/
def chat (create : UpstreamChat) (c : Cache) (request : ChatRequest) : ChatOutcome :=
  match MODELS_get request.model with
  | none =>
    ⟨.httpError ⟨400, unknown_model_detail request.model⟩, c, [], []⟩
  | some model_id =>
    match cache_get c (request.message, model_id) with
    | some text =>
      ⟨.ok ⟨text, request.model, ⟨0, 0⟩, 0, true⟩, c, [.cacheHit request.model], []⟩
    | none =>
      match create model_id request.message with
      | .err e =>
        ⟨.httpError ⟨503, e⟩, c, [.upstreamError request.model e],
          [(model_id, request.message)]⟩
      | .ok text usage =>
        let c2 := cache_set c (request.message, model_id) text
        match calculate_cost model_id usage with
        | none => ⟨.keyError, c2, [], [(model_id, request.message)]⟩
        | some raw =>
          let cost := round6 raw
          ⟨.ok ⟨text, request.model, usage, cost, false⟩, c2,
            [.chatResponse request.model usage.input_tokens usage.output_tokens cost],
            [(model_id, request.message)]⟩

/-- The trailer chunk (src/main.py:100-104). Python renders the cost float in
decimal notation; here the same rational is rendered by `toString`. -/
def stream_trailer (input_tokens output_tokens : Nat) (cost : ℚ) : String :=
  "\n\n[input tokens: " ++ toString input_tokens ++ ", output tokens: "
    ++ toString output_tokens ++ ", estimated cost: $" ++ toString cost ++ "]"

/-- How iteration of the streaming body ends early: the `HTTPException(503)`
raised by the `except APIError` handler, or an uncaught `KeyError` from the
cost-table lookup. -/
inductive StreamAbort where
  | http (e : HTTPException)
  | keyError
deriving DecidableEq, Repr

/-- Terminal shape of one streaming request: a 400 raised before any
`StreamingResponse` exists, or a response with its `X-Cache` header value, the
chunks its body yields, and an optional abort ending the iteration. -/
inductive StreamResult where
  | httpError (e : HTTPException)
  | streamed (x_cache : String) (chunks : List String) (aborted : Option StreamAbort)
deriving DecidableEq, Repr

/-- Full observable outcome of one streaming request (response construction
plus consumption of the generator body). -/
structure StreamOutcome where
  result : StreamResult
  cache : Cache
  log : List LogEvent
  upstream_calls : List (String × String)
deriving DecidableEq, Repr

/-- `chat_stream` (src/main.py:62-109) together with running its `generate()`
body to the end, with the upstream client and cache passed explicitly. -/
def chat_stream (stream : UpstreamStream) (c : Cache) (request : ChatRequest) :
    StreamOutcome :=
  match MODELS_get request.model with
  | none =>
    ⟨.httpError ⟨400, unknown_model_detail request.model⟩, c, [], []⟩
  | some model_id =>
    match cache_get c (request.message, model_id) with
    | some text =>
      ⟨.streamed "HIT" [text] none, c, [.cacheHit request.model], []⟩
    | none =>
      match stream model_id request.message with
      | .errAt chunks e =>
        ⟨.streamed "MISS" chunks (some (.http ⟨503, e⟩)), c,
          [.upstreamError request.model e], [(model_id, request.message)]⟩
      | .ok chunks final_text usage =>
        let c2 := cache_set c (request.message, model_id) final_text
        match calculate_cost model_id usage with
        | none =>
          ⟨.streamed "MISS" chunks (some .keyError), c2, [],
            [(model_id, request.message)]⟩
        | some raw =>
          let cost := round6 raw
          ⟨.streamed "MISS"
              (chunks ++ [stream_trailer usage.input_tokens usage.output_tokens cost])
              none,
            c2,
            [.streamResponse request.model usage.input_tokens usage.output_tokens cost],
            [(model_id, request.message)]⟩

/-! Concrete fixtures used by the witness theorems below (the shapes the
repository's own tests mock: a "Hello!" completion with usage 10/5, an
`APIError` with message "upstream error"). -/

/-- A buffered upstream that always completes with "Hello!" and usage 10/5. -/
def createW : UpstreamChat := fun _ _ => .ok "Hello!" ⟨10, 5⟩

/-- A streaming upstream that yields "Hello", "!" and completes with the
assembled text and usage 10/5. -/
def streamW : UpstreamStream := fun _ _ => .ok ["Hello", "!"] "Hello!" ⟨10, 5⟩

/-- A buffered upstream that always raises an `APIError`. -/
def createErrW : UpstreamChat := fun _ _ => .err "upstream error"

/-- A streaming upstream that fails after yielding one chunk. -/
def streamErrW : UpstreamStream := fun _ _ => .errAt ["He"] "upstream error"

/-- A one-entry starting cache, keyed by ("hi", sonnet id). -/
def cacheW : Cache := [(("hi", "claude-sonnet-4-6"), "old text")]

/-- The response body `chat` produces for a miss answered by `createW` under
the haiku rates: cost round6(10/1e6 · 0.8 + 5/1e6 · 4) = 7/250000. -/
def respW : ChatResponse := ⟨"Hello!", "haiku", ⟨10, 5⟩, 7/250000, false⟩

/-- Alias resolution, computed out: the registry holds exactly the aliases
"haiku" and "sonnet". -/
theorem models_resolve (al : String) :
    MODELS_get al =
      (if "haiku" = al then some "claude-haiku-4-5-20251001"
       else if "sonnet" = al then some "claude-sonnet-4-6" else none) := by
  unfold MODELS_get MODELS
  rcases eq_or_ne ("haiku" : String) al with h1 | h1
  · subst h1; simp [List.find?]
  · rcases eq_or_ne ("sonnet" : String) al with h2 | h2
    · subst h2; simp [List.find?]
    · simp [List.find?, h1, h2]

/-- Every id the registry can resolve to has an entry in the cost table. -/
theorem resolved_has_cost (al id : String) (h : MODELS_get al = some id) :
    ∃ ri ro, cost_lookup id = some (ri, ro) := by
  rw [models_resolve] at h
  rcases eq_or_ne ("haiku" : String) al with h1 | h1
  · rw [if_pos h1] at h
    refine ⟨8/10, 4, ?_⟩
    simp at h
    simp [← h, cost_lookup, COST_PER_MILLION_TOKENS, List.find?]
  · rw [if_neg h1] at h
    rcases eq_or_ne ("sonnet" : String) al with h2 | h2
    · rw [if_pos h2] at h
      refine ⟨3, 15, ?_⟩
      simp at h
      simp [← h, cost_lookup, COST_PER_MILLION_TOKENS, List.find?]
    · rw [if_neg h2] at h; exact absurd h (by simp)

/-- A key that `cache_get` misses fails the membership test `in cache`. -/
theorem cache_get_none_any (c : Cache) (k : CacheKey) (h : cache_get c k = none) :
    c.any (fun p => p.1 = k) = false := by
  unfold cache_get at h
  rw [Option.map_eq_none'] at h
  rw [List.find?_eq_none] at h
  simp only [List.any_eq_false]
  intro x hx
  simpa using h x hx

/-- Writing an absent key appends the new entry, touching nothing else. -/
theorem cache_set_of_get_none (c : Cache) (k : CacheKey) (v : String)
    (h : cache_get c k = none) : cache_set c k v = c ++ [(k, v)] := by
  unfold cache_set
  rw [cache_get_none_any c k h]
  rfl

/-- After writing an absent key, looking it up returns the written value. -/
theorem cache_get_set_self (c : Cache) (k : CacheKey) (v : String)
    (h : cache_get c k = none) : cache_get (cache_set c k v) k = some v := by
  rw [cache_set_of_get_none c k v h]
  unfold cache_get at h ⊢
  rw [Option.map_eq_none'] at h
  rw [List.find?_append, h]
  simp [List.find?]

/-- C1: from the initial (empty) cache, if a first buffered `chat(message,
alias)` call with a known alias succeeds, it returns `cached = false` and
stores its response text under (message, resolved id), so a second identical
buffered request performs no upstream call and returns the cached text with
usage 0/0, cost 0, and `cached = true`. -/
theorem C1_buffered_memoization (create : UpstreamChat) (msg al id : String)
    (resp1 : ChatResponse)
    (hm : MODELS_get al = some id)
    (h1 : (chat create [] ⟨msg, al⟩).result = .ok resp1) :
    resp1.cached = false
    ∧ cache_get (chat create [] ⟨msg, al⟩).cache (msg, id) = some resp1.response
    ∧ (chat create (chat create [] ⟨msg, al⟩).cache ⟨msg, al⟩).upstream_calls = []
    ∧ (chat create (chat create [] ⟨msg, al⟩).cache ⟨msg, al⟩).result
        = .ok ⟨resp1.response, al, ⟨0, 0⟩, 0, true⟩ := by
  have hc0 : cache_get [] (msg, id) = none := rfl
  rcases hu : create id msg with ⟨text, usage⟩ | e
  · rcases hcost : calculate_cost id usage with _ | raw
    · simp [chat, hm, hc0, hu, hcost] at h1
    · have hout : chat create [] ⟨msg, al⟩
          = ⟨.ok ⟨text, al, usage, round6 raw, false⟩,
             cache_set [] (msg, id) text,
             [.chatResponse al usage.input_tokens usage.output_tokens (round6 raw)],
             [(id, msg)]⟩ := by
        simp [chat, hm, hc0, hu, hcost]
      rw [hout] at h1 ⊢
      simp only [ChatOutcome.cache] at h1 ⊢
      have hresp : resp1 = ⟨text, al, usage, round6 raw, false⟩ := by
        simpa using h1.symm
      subst hresp
      have hget : cache_get (cache_set [] (msg, id) text) (msg, id) = some text :=
        cache_get_set_self [] (msg, id) text rfl
      refine ⟨rfl, hget, ?_, ?_⟩
      · simp [chat, hm, hget]
      · simp [chat, hm, hget]
  · simp [chat, hm, hc0, hu] at h1

/-- C1 witness: the concrete run at message "hello", alias "haiku", with the
upstream always answering "Hello!" at usage 10/5. -/
theorem C1_witness :
    MODELS_get "haiku" = some "claude-haiku-4-5-20251001"
    ∧ (chat createW [] ⟨"hello", "haiku"⟩).result = .ok respW
    ∧ (respW.cached = false
      ∧ cache_get (chat createW [] ⟨"hello", "haiku"⟩).cache
          ("hello", "claude-haiku-4-5-20251001") = some respW.response
      ∧ (chat createW (chat createW [] ⟨"hello", "haiku"⟩).cache
          ⟨"hello", "haiku"⟩).upstream_calls = []
      ∧ (chat createW (chat createW [] ⟨"hello", "haiku"⟩).cache
          ⟨"hello", "haiku"⟩).result
          = .ok ⟨respW.response, "haiku", ⟨0, 0⟩, 0, true⟩) := by
  have hW : (chat createW [] ⟨"hello", "haiku"⟩).result = .ok respW := by
    norm_num [chat, createW, respW, MODELS_get, MODELS, cache_get,
      calculate_cost, cost_lookup, COST_PER_MILLION_TOKENS, List.find?, round6]
  exact ⟨rfl, hW,
    C1_buffered_memoization createW "hello" "haiku" "claude-haiku-4-5-20251001" respW rfl hW⟩

/-- C2: for a model id with rates (ri, ro), `calculate_cost` is exactly
tokens/1e6·rate summed; the value `chat` surfaces on a non-cached success is
that amount rounded once to six decimals; at the haiku rates, one million
tokens of each yields exactly 4.80, which six-decimal rounding leaves
untouched. -/
theorem C2_cost_surfacing (model_id : String) (u : Usage) (ri ro : ℚ)
    (h : cost_lookup model_id = some (ri, ro)) :
    calculate_cost model_id u
        = some ((u.input_tokens : ℚ) / 1000000 * ri + (u.output_tokens : ℚ) / 1000000 * ro)
    ∧ (∀ (create : UpstreamChat) (c : Cache) (req : ChatRequest) (resp : ChatResponse),
        (chat create c req).result = .ok resp → resp.cached = false →
        ∃ id raw, MODELS_get req.model = some id
          ∧ calculate_cost id resp.usage = some raw
          ∧ resp.estimated_cost_usd = round6 raw)
    ∧ calculate_cost "claude-haiku-4-5-20251001" ⟨1000000, 1000000⟩ = some (4.80 : ℚ)
    ∧ round6 (4.80 : ℚ) = (4.80 : ℚ) := by
  refine ⟨by simp [calculate_cost, h], ?_, ?_, ?_⟩
  · intro create c req resp hok hFalse
    rcases hm : MODELS_get req.model with _ | id
    · simp [chat, hm] at hok
    · rcases hcg : cache_get c (req.message, id) with _ | text
      · rcases hu : create id req.message with ⟨text, usage⟩ | e
        · rcases hcost : calculate_cost id usage with _ | raw
          · simp [chat, hm, hcg, hu, hcost] at hok
          · have hresp : resp = ⟨text, req.model, usage, round6 raw, false⟩ := by
              have h2 := hok
              simp [chat, hm, hcg, hu, hcost] at h2
              exact h2.symm
            subst hresp
            exact ⟨id, raw, rfl, by simpa using hcost, rfl⟩
        · simp [chat, hm, hcg, hu] at hok
      · have hresp : resp = ⟨text, req.model, ⟨0, 0⟩, 0, true⟩ := by
          have h2 := hok
          simp [chat, hm, hcg] at h2
          exact h2.symm
        rw [hresp] at hFalse
        simp at hFalse
  · norm_num [calculate_cost, cost_lookup, COST_PER_MILLION_TOKENS, List.find?]
  · norm_num [round6]

/-- C2 witness: the haiku entry of the cost table at usage 10/5. -/
theorem C2_witness :
    cost_lookup "claude-haiku-4-5-20251001" = some (8/10, 4)
    ∧ (calculate_cost "claude-haiku-4-5-20251001" ⟨10, 5⟩
        = some ((10 : ℚ) / 1000000 * (8/10) + (5 : ℚ) / 1000000 * 4)
      ∧ (∀ (create : UpstreamChat) (c : Cache) (req : ChatRequest) (resp : ChatResponse),
          (chat create c req).result = .ok resp → resp.cached = false →
          ∃ id raw, MODELS_get req.model = some id
            ∧ calculate_cost id resp.usage = some raw
            ∧ resp.estimated_cost_usd = round6 raw)
      ∧ calculate_cost "claude-haiku-4-5-20251001" ⟨1000000, 1000000⟩ = some (4.80 : ℚ)
      ∧ round6 (4.80 : ℚ) = (4.80 : ℚ)) :=
  ⟨rfl, C2_cost_surfacing "claude-haiku-4-5-20251001" ⟨10, 5⟩ (8/10) 4 rfl⟩

/-- C3: on a streaming cache miss whose upstream stream completes (its chunks
assembling to the final message text, and an equivalent buffered call
returning that same text), the chunks yielded before the trailer concatenate
to the buffered-mode response text; the assembled text is written to the
cache under (message, resolved id) in the completion branch, and exactly one
trailer chunk carrying input tokens, output tokens and rounded cost is
appended to the stream. -/
theorem C3_stream_refines_buffered (create : UpstreamChat) (stream : UpstreamStream)
    (c : Cache) (msg al id final_text : String) (chunks : List String)
    (usage busage : Usage)
    (hm : MODELS_get al = some id)
    (hc : cache_get c (msg, id) = none)
    (hs : stream id msg = .ok chunks final_text usage)
    (hjoin : String.join chunks = final_text)
    (hb : create id msg = .ok final_text busage) :
    ∃ raw, calculate_cost id usage = some raw
      ∧ chat_stream stream c ⟨msg, al⟩
          = ⟨.streamed "MISS"
              (chunks ++ [stream_trailer usage.input_tokens usage.output_tokens (round6 raw)])
              none,
             cache_set c (msg, id) final_text,
             [.streamResponse al usage.input_tokens usage.output_tokens (round6 raw)],
             [(id, msg)]⟩
      ∧ (∃ resp, (chat create c ⟨msg, al⟩).result = .ok resp
          ∧ String.join chunks = resp.response)
      ∧ cache_get (chat_stream stream c ⟨msg, al⟩).cache (msg, id) = some final_text := by
  obtain ⟨ri, ro, hcl⟩ := resolved_has_cost al id hm
  have hcost : calculate_cost id usage
      = some ((usage.input_tokens : ℚ) / 1000000 * ri
          + (usage.output_tokens : ℚ) / 1000000 * ro) := by
    simp [calculate_cost, hcl]
  have hbcost : calculate_cost id busage
      = some ((busage.input_tokens : ℚ) / 1000000 * ri
          + (busage.output_tokens : ℚ) / 1000000 * ro) := by
    simp [calculate_cost, hcl]
  refine ⟨_, hcost, ?_, ?_, ?_⟩
  · simp [chat_stream, hm, hc, hs, hcost]
  · refine ⟨⟨final_text, al, busage,
        round6 ((busage.input_tokens : ℚ) / 1000000 * ri
          + (busage.output_tokens : ℚ) / 1000000 * ro), false⟩,
      ?_, by simpa using hjoin⟩
    simp [chat, hm, hc, hb, hbcost]
  · have hcache : (chat_stream stream c ⟨msg, al⟩).cache
        = cache_set c (msg, id) final_text := by
      simp [chat_stream, hm, hc, hs, hcost]
    rw [hcache]
    exact cache_get_set_self c (msg, id) final_text hc

/-- C3 witness: the concrete streaming run at message "hello", alias "haiku",
chunks "Hello" and "!". -/
theorem C3_witness :
    MODELS_get "haiku" = some "claude-haiku-4-5-20251001"
    ∧ cache_get [] ("hello", "claude-haiku-4-5-20251001") = none
    ∧ streamW "claude-haiku-4-5-20251001" "hello" = .ok ["Hello", "!"] "Hello!" ⟨10, 5⟩
    ∧ String.join ["Hello", "!"] = "Hello!"
    ∧ createW "claude-haiku-4-5-20251001" "hello" = .ok "Hello!" ⟨10, 5⟩
    ∧ (∃ raw, calculate_cost "claude-haiku-4-5-20251001" ⟨10, 5⟩ = some raw
      ∧ chat_stream streamW [] ⟨"hello", "haiku"⟩
          = ⟨.streamed "MISS" (["Hello", "!"] ++ [stream_trailer 10 5 (round6 raw)]) none,
             cache_set [] ("hello", "claude-haiku-4-5-20251001") "Hello!",
             [.streamResponse "haiku" 10 5 (round6 raw)],
             [("claude-haiku-4-5-20251001", "hello")]⟩
      ∧ (∃ resp, (chat createW [] ⟨"hello", "haiku"⟩).result = .ok resp
          ∧ String.join ["Hello", "!"] = resp.response)
      ∧ cache_get (chat_stream streamW [] ⟨"hello", "haiku"⟩).cache
          ("hello", "claude-haiku-4-5-20251001") = some "Hello!") :=
  ⟨rfl, rfl, rfl, rfl, rfl,
    C3_stream_refines_buffered createW streamW [] "hello" "haiku"
      "claude-haiku-4-5-20251001" "Hello!" ["Hello", "!"] ⟨10, 5⟩ ⟨10, 5⟩
      rfl rfl rfl rfl rfl⟩

/-- C4: a request whose alias the registry cannot resolve fails, in both
buffered and streaming mode, with a 400 whose detail names the alias and
lists the valid aliases; no upstream call is recorded and the cache is
exactly what it was. -/
theorem C4_unknown_model (create : UpstreamChat) (stream : UpstreamStream)
    (c : Cache) (msg al : String)
    (h : MODELS_get al = none) :
    chat create c ⟨msg, al⟩ = ⟨.httpError ⟨400, unknown_model_detail al⟩, c, [], []⟩
    ∧ chat_stream stream c ⟨msg, al⟩
        = ⟨.httpError ⟨400, unknown_model_detail al⟩, c, [], []⟩ := by
  constructor
  · simp [chat, h]
  · simp [chat_stream, h]

/-- C4 witness: the unknown alias "gpt-4" against a one-entry cache. -/
theorem C4_witness :
    MODELS_get "gpt-4" = none
    ∧ (chat createW cacheW ⟨"hello", "gpt-4"⟩
        = ⟨.httpError ⟨400, unknown_model_detail "gpt-4"⟩, cacheW, [], []⟩
      ∧ chat_stream streamW cacheW ⟨"hello", "gpt-4"⟩
        = ⟨.httpError ⟨400, unknown_model_detail "gpt-4"⟩, cacheW, [], []⟩) :=
  ⟨rfl, C4_unknown_model createW streamW cacheW "hello" "gpt-4" rfl⟩

/-- C5: a buffered cache miss whose upstream call raises an `APIError` ends
as a 503 carrying the upstream message, leaves the cache exactly as it was,
and logs exactly one error line holding the alias and the error. -/
theorem C5_buffered_failure (create : UpstreamChat) (c : Cache)
    (msg al id e : String)
    (hm : MODELS_get al = some id)
    (hc : cache_get c (msg, id) = none)
    (hu : create id msg = .err e) :
    chat create c ⟨msg, al⟩
      = ⟨.httpError ⟨503, e⟩, c, [.upstreamError al e], [(id, msg)]⟩ := by
  simp [chat, hm, hc, hu]

/-- C5 witness: the failing upstream at message "hello", alias "haiku". -/
theorem C5_witness :
    MODELS_get "haiku" = some "claude-haiku-4-5-20251001"
    ∧ cache_get cacheW ("hello", "claude-haiku-4-5-20251001") = none
    ∧ createErrW "claude-haiku-4-5-20251001" "hello" = .err "upstream error"
    ∧ chat createErrW cacheW ⟨"hello", "haiku"⟩
        = ⟨.httpError ⟨503, "upstream error"⟩, cacheW,
           [.upstreamError "haiku" "upstream error"],
           [("claude-haiku-4-5-20251001", "hello")]⟩ :=
  ⟨rfl, rfl, rfl,
    C5_buffered_failure createErrW cacheW "hello" "haiku" "claude-haiku-4-5-20251001"
      "upstream error" rfl rfl rfl⟩

/-- C6: a streaming cache miss whose upstream fails after a prefix of chunks
(possibly the empty prefix, a failure before the stream begins) yields
exactly that prefix and ends iteration by raising the 503 `HTTPException`
with the upstream message; the cache is exactly what it was and exactly one
error line holding the alias and the error is logged. -/
theorem C6_stream_failure (stream : UpstreamStream) (c : Cache)
    (msg al id e : String) (chunks : List String)
    (hm : MODELS_get al = some id)
    (hc : cache_get c (msg, id) = none)
    (hu : stream id msg = .errAt chunks e) :
    chat_stream stream c ⟨msg, al⟩
      = ⟨.streamed "MISS" chunks (some (.http ⟨503, e⟩)), c,
          [.upstreamError al e], [(id, msg)]⟩ := by
  simp [chat_stream, hm, hc, hu]

/-- C6 witness: the upstream failing after one chunk, at alias "haiku". -/
theorem C6_witness :
    MODELS_get "haiku" = some "claude-haiku-4-5-20251001"
    ∧ cache_get cacheW ("hello", "claude-haiku-4-5-20251001") = none
    ∧ streamErrW "claude-haiku-4-5-20251001" "hello" = .errAt ["He"] "upstream error"
    ∧ chat_stream streamErrW cacheW ⟨"hello", "haiku"⟩
        = ⟨.streamed "MISS" ["He"] (some (.http ⟨503, "upstream error"⟩)), cacheW,
           [.upstreamError "haiku" "upstream error"],
           [("claude-haiku-4-5-20251001", "hello")]⟩ :=
  ⟨rfl, rfl, rfl,
    C6_stream_failure streamErrW cacheW "hello" "haiku" "claude-haiku-4-5-20251001"
      "upstream error" ["He"] rfl rfl rfl⟩

/-- C7: a streaming request whose key is cached produces exactly the cached
text as the single chunk, is marked HIT, and performs no upstream call; on a
miss the result is marked MISS from the start whatever the body later does. -/
theorem C7_stream_cache_marking (stream : UpstreamStream) (c : Cache)
    (msg al id : String)
    (hm : MODELS_get al = some id) :
    (∀ text, cache_get c (msg, id) = some text →
      chat_stream stream c ⟨msg, al⟩
        = ⟨.streamed "HIT" [text] none, c, [.cacheHit al], []⟩)
    ∧ (cache_get c (msg, id) = none →
      ∃ chunks aborted,
        (chat_stream stream c ⟨msg, al⟩).result = .streamed "MISS" chunks aborted) := by
  constructor
  · intro text hc
    simp [chat_stream, hm, hc]
  · intro hc
    rcases hs : stream id msg with ⟨chunks, ftext, usage⟩ | ⟨chunks, e⟩
    · rcases hcost : calculate_cost id usage with _ | raw
      · exact ⟨chunks, some .keyError, by simp [chat_stream, hm, hc, hs, hcost]⟩
      · exact ⟨chunks ++ [stream_trailer usage.input_tokens usage.output_tokens (round6 raw)],
          none, by simp [chat_stream, hm, hc, hs, hcost]⟩
    · exact ⟨chunks, some (.http ⟨503, e⟩), by simp [chat_stream, hm, hc, hs]⟩

/-- C7 witness: alias "sonnet" against the cache holding ("hi", sonnet id). -/
theorem C7_witness :
    MODELS_get "sonnet" = some "claude-sonnet-4-6"
    ∧ ((∀ text, cache_get cacheW ("hi", "claude-sonnet-4-6") = some text →
        chat_stream streamW cacheW ⟨"hi", "sonnet"⟩
          = ⟨.streamed "HIT" [text] none, cacheW, [.cacheHit "sonnet"], []⟩)
      ∧ (cache_get cacheW ("hi", "claude-sonnet-4-6") = none →
        ∃ chunks aborted,
          (chat_stream streamW cacheW ⟨"hi", "sonnet"⟩).result
            = .streamed "MISS" chunks aborted)) :=
  ⟨rfl, C7_stream_cache_marking streamW cacheW "hi" "sonnet" "claude-sonnet-4-6" rfl⟩

/-- C8: every model id obtainable through the registry is a key of the cost
table, so the lookup inside `calculate_cost` is total on every request that
passed alias resolution (the invariant a startup-time consistency check
would assert holds of the two static tables). -/
theorem C8_registry_cost_consistent (al id : String) (usage : Usage)
    (h : MODELS_get al = some id) :
    (cost_lookup id).isSome ∧ (calculate_cost id usage).isSome := by
  obtain ⟨ri, ro, hc⟩ := resolved_has_cost al id h
  simp [calculate_cost, hc]

/-- C8 witness: the haiku alias. -/
theorem C8_witness :
    MODELS_get "haiku" = some "claude-haiku-4-5-20251001"
    ∧ ((cost_lookup "claude-haiku-4-5-20251001").isSome
      ∧ (calculate_cost "claude-haiku-4-5-20251001" ⟨10, 5⟩).isSome) :=
  ⟨rfl, C8_registry_cost_consistent "haiku" "claude-haiku-4-5-20251001" ⟨10, 5⟩ rfl⟩

/-- C9: no request removes or replaces a cache entry: every pair present
before a buffered or streaming request is present afterwards, whatever the
outcome; and a cache hit leaves the cache exactly unchanged. -/
theorem C9_no_eviction (create : UpstreamChat) (stream : UpstreamStream)
    (c : Cache) (request : ChatRequest) (k : CacheKey) (v : String)
    (h : (k, v) ∈ c) :
    (k, v) ∈ (chat create c request).cache
    ∧ (k, v) ∈ (chat_stream stream c request).cache
    ∧ (∀ id text, MODELS_get request.model = some id →
        cache_get c (request.message, id) = some text →
        (chat create c request).cache = c ∧ (chat_stream stream c request).cache = c) := by
  refine ⟨?_, ?_, ?_⟩
  · rcases hm : MODELS_get request.model with _ | id
    · simpa [chat, hm] using h
    · rcases hcg : cache_get c (request.message, id) with _ | text
      · rcases hu : create id request.message with ⟨text, usage⟩ | e
        · rcases hcost : calculate_cost id usage with _ | raw <;>
            simp [chat, hm, hcg, hu, hcost, cache_set_of_get_none _ _ _ hcg] <;>
            exact Or.inl h
        · simpa [chat, hm, hcg, hu] using h
      · simpa [chat, hm, hcg] using h
  · rcases hm : MODELS_get request.model with _ | id
    · simpa [chat_stream, hm] using h
    · rcases hcg : cache_get c (request.message, id) with _ | text
      · rcases hu : stream id request.message with ⟨chunks, ftext, usage⟩ | ⟨chunks, e⟩
        · rcases hcost : calculate_cost id usage with _ | raw <;>
            simp [chat_stream, hm, hcg, hu, hcost, cache_set_of_get_none _ _ _ hcg] <;>
            exact Or.inl h
        · simpa [chat_stream, hm, hcg, hu] using h
      · simpa [chat_stream, hm, hcg] using h
  · intro id text hm hcg
    constructor
    · simp [chat, hm, hcg]
    · simp [chat_stream, hm, hcg]

/-- C9 witness: the pre-existing entry survives a miss-and-write request. -/
theorem C9_witness :
    (("hi", "claude-sonnet-4-6"), "old text") ∈ cacheW
    ∧ ((("hi", "claude-sonnet-4-6"), "old text")
        ∈ (chat createW cacheW ⟨"hello", "haiku"⟩).cache
      ∧ (("hi", "claude-sonnet-4-6"), "old text")
        ∈ (chat_stream streamW cacheW ⟨"hello", "haiku"⟩).cache
      ∧ (∀ id text, MODELS_get (ChatRequest.mk "hello" "haiku").model = some id →
          cache_get cacheW ((ChatRequest.mk "hello" "haiku").message, id) = some text →
          (chat createW cacheW ⟨"hello", "haiku"⟩).cache = cacheW
          ∧ (chat_stream streamW cacheW ⟨"hello", "haiku"⟩).cache = cacheW)) :=
  ⟨by simp [cacheW],
    C9_no_eviction createW streamW cacheW ⟨"hello", "haiku"⟩
      ("hi", "claude-sonnet-4-6") "old text" (by simp [cacheW])⟩

/-- C10: after a successful streaming miss the cached value is exactly the
upstream final message text — the trailer chunk is not part of it — so a
later streaming replay is a single-chunk HIT of the model text alone and a
later buffered replay returns that text with zero usage and cost. -/
theorem C10_trailer_not_cached (create2 : UpstreamChat) (stream stream2 : UpstreamStream)
    (c : Cache) (msg al id final_text : String) (chunks : List String) (usage : Usage)
    (hm : MODELS_get al = some id)
    (hc : cache_get c (msg, id) = none)
    (hs : stream id msg = .ok chunks final_text usage) :
    (chat_stream stream c ⟨msg, al⟩).cache = cache_set c (msg, id) final_text
    ∧ cache_get (chat_stream stream c ⟨msg, al⟩).cache (msg, id) = some final_text
    ∧ chat_stream stream2 (chat_stream stream c ⟨msg, al⟩).cache ⟨msg, al⟩
        = ⟨.streamed "HIT" [final_text] none,
           (chat_stream stream c ⟨msg, al⟩).cache, [.cacheHit al], []⟩
    ∧ (chat create2 (chat_stream stream c ⟨msg, al⟩).cache ⟨msg, al⟩).result
        = .ok ⟨final_text, al, ⟨0, 0⟩, 0, true⟩ := by
  obtain ⟨ri, ro, hcl⟩ := resolved_has_cost al id hm
  have hcost : calculate_cost id usage
      = some ((usage.input_tokens : ℚ) / 1000000 * ri
          + (usage.output_tokens : ℚ) / 1000000 * ro) := by
    simp [calculate_cost, hcl]
  have hcache : (chat_stream stream c ⟨msg, al⟩).cache
      = cache_set c (msg, id) final_text := by
    simp [chat_stream, hm, hc, hs, hcost]
  have hget : cache_get (cache_set c (msg, id) final_text) (msg, id) = some final_text :=
    cache_get_set_self c (msg, id) final_text hc
  rw [hcache]
  exact ⟨rfl, hget, by simp [chat_stream, hm, hget], by simp [chat, hm, hget]⟩

/-- C10 witness: the concrete streaming miss then both replays. -/
theorem C10_witness :
    MODELS_get "haiku" = some "claude-haiku-4-5-20251001"
    ∧ cache_get [] ("hello", "claude-haiku-4-5-20251001") = none
    ∧ streamW "claude-haiku-4-5-20251001" "hello" = .ok ["Hello", "!"] "Hello!" ⟨10, 5⟩
    ∧ ((chat_stream streamW [] ⟨"hello", "haiku"⟩).cache
        = cache_set [] ("hello", "claude-haiku-4-5-20251001") "Hello!"
      ∧ cache_get (chat_stream streamW [] ⟨"hello", "haiku"⟩).cache
          ("hello", "claude-haiku-4-5-20251001") = some "Hello!"
      ∧ chat_stream streamW (chat_stream streamW [] ⟨"hello", "haiku"⟩).cache
          ⟨"hello", "haiku"⟩
          = ⟨.streamed "HIT" ["Hello!"] none,
             (chat_stream streamW [] ⟨"hello", "haiku"⟩).cache, [.cacheHit "haiku"], []⟩
      ∧ (chat createW (chat_stream streamW [] ⟨"hello", "haiku"⟩).cache
          ⟨"hello", "haiku"⟩).result
          = .ok ⟨"Hello!", "haiku", ⟨0, 0⟩, 0, true⟩) :=
  ⟨rfl, rfl, rfl,
    C10_trailer_not_cached createW streamW streamW [] "hello" "haiku"
      "claude-haiku-4-5-20251001" "Hello!" ["Hello", "!"] ⟨10, 5⟩ rfl rfl rfl⟩
